import Mathlib

/-!
Verification of the kanso editor core: the document session in
src/writing.rs and the application controller state machine in
src/main.rs (a debounced, length-guarded persistence protocol).

Modelling conventions:
- Rust strings are modelled as lists of characters; the Rust value
  String.len, used by main.rs as the debounce token, is the UTF-8 byte
  count of the string, modelled by byteLen below.
- Filesystem and timer effects are represented by the commands the
  controller returns; the asynchronous parts of load and save are split
  into a pure initiation step and a completion message.
- The word segmentation of the external unicode-segmentation crate is
  an abstract parameter (WordSegmenter); the only fact used about it is
  that the empty string contains zero words.
-/

/-- Number of bytes of the UTF-8 encoding of a character, as computed by
the Rust standard library function char::len_utf8. -/
def len_utf8 (c : Char) : Nat :=
  if c.toNat < 0x80 then 1
  else if c.toNat < 0x800 then 2
  else if c.toNat < 0x10000 then 3
  else 4

/-- UTF-8 byte count of a string given as its list of characters; this is
what the Rust expression content.len() returns in main.rs. -/
def byteLen (l : List Char) : Nat := (l.map len_utf8).sum

/-- Classification of an OS I/O error, mirroring std::io::ErrorKind. -/
inductive ErrorKind
  | NotFound
  | PermissionDenied
  | IsADirectory
  | Other (code : Nat)
deriving DecidableEq, Repr

/-- The single error kind of the program: Error::IOFailed in both
src/writing.rs and src/main.rs carries the underlying io::ErrorKind. -/
inductive Error
  | IOFailed (kind : ErrorKind)
deriving DecidableEq, Repr

/-- Abstract word segmenter standing for the external crate call
content.unicode_words().count(); the empty string has no words. -/
structure WordSegmenter where
  count : List Char → Nat
  count_nil : count [] = 0

/-- Abstract filesystem: the results of tokio::fs::try_exists and
tokio::fs::read_to_string for each path. -/
structure Fs where
  try_exists : String → Except ErrorKind Bool
  read_to_string : String → Except ErrorKind (List Char)

/-- The document session of src/writing.rs: struct Writing. The Version
newtype around u64 is modelled as Nat. -/
structure Writing where
  filepath : String
  content : List Char
  version : Nat
  last_save : Nat
  original_word_count : Nat
deriving DecidableEq, Repr

/-- Writing::load: checks existence, treats a missing file as an empty
document, computes the baseline word count, and starts both counters at
zero. Any I/O error is converted to Error::IOFailed of its kind. -/
def Writing.load (uw : WordSegmenter) (fs : Fs) (filepath : String) :
    Except Error Writing :=
  match fs.try_exists filepath with
  | .error kind => .error (.IOFailed kind)
  | .ok ex =>
    match (if ex then fs.read_to_string filepath else .ok []) with
    | .error kind => .error (.IOFailed kind)
    | .ok content =>
        .ok { filepath := filepath, content := content, version := 0,
              last_save := 0, original_word_count := uw.count content }

/-- The data captured by the future returned by Writing::save: the clones
of filepath and content that the asynchronous write will use. -/
structure SaveJob where
  filepath : String
  content : List Char
deriving DecidableEq, Repr

/-- Writing::save: the synchronous part sets last_save to the current
version and snapshots filepath and content for the asynchronous write. -/
def Writing.save (s : Writing) : Writing × SaveJob :=
  ({ s with last_save := s.version },
   { filepath := s.filepath, content := s.content })

/-- Writing::is_dirty: version differs from the last initiated save. -/
def Writing.is_dirty (s : Writing) : Bool := s.version != s.last_save

/-- Writing::word_count: the segmenter applied to the current content. -/
def Writing.word_count (uw : WordSegmenter) (s : Writing) : Nat :=
  uw.count s.content

/-- Writing::word_count_difference: signed difference between the current
word count and the baseline taken at load time. The u64 to i64 casts in
the source are value preserving for any count a buffer can reach, so the
result is modelled in Int. -/
def Writing.word_count_difference (uw : WordSegmenter) (s : Writing) : Int :=
  (Writing.word_count uw s : Int) - (s.original_word_count : Int)

/-- Writing::write: push one character, advance the version. -/
def Writing.write (s : Writing) (character : Char) : Writing :=
  { s with content := s.content ++ [character], version := s.version + 1 }

/-- Writing::amend: pop the last character if any (String::pop is a no-op
on an empty buffer), advance the version either way. -/
def Writing.amend (s : Writing) : Writing :=
  { s with content := s.content.dropLast, version := s.version + 1 }

/-- An edit intent: append one character, or remove the last one. -/
inductive EditOp
  | write (c : Char)
  | amend
deriving DecidableEq, Repr

/-- Apply one edit intent to a session. -/
def Writing.apply : Writing → EditOp → Writing
  | s, .write c => s.write c
  | s, .amend => s.amend

/-- Apply a sequence of edit intents to a session, left to right. -/
def Writing.applyAll (s : Writing) (ops : List EditOp) : Writing :=
  ops.foldl Writing.apply s

/-- The application state of src/main.rs: enum Kanso. -/
inductive Kanso
  | Loading
  | Creating (filename : String)
  | Editing (filepath : String) (content : List Char) (is_dirty : Bool)
  | Errored (error : Error)
deriving DecidableEq, Repr

/-- The event type of src/main.rs: enum Message. -/
inductive Message
  | Loaded (r : Except Error (String × List Char))
  | FilenameChanged (filename : String)
  | FilenameChosen
  | Write (character : Char)
  | Amend
  | Save (version : Nat)
  | Saved (r : Except Error Unit)

/-- The command returned by one update step. scheduleSave v models
Command::perform(wait_a_bit(), move push Message::Save(v)), that is a
debounce timer that will deliver Save v; performSave models launching the
asynchronous write of the given snapshot, which will deliver Saved. -/
inductive Command
  | none
  | loadFile (path : String)
  | focusNext
  | scheduleSave (version : Nat)
  | performSave (filepath : String) (content : List Char)
deriving DecidableEq, Repr

/-- Kanso::update, transliterated arm by arm from src/main.rs. Note that
the Loaded and Saved(Err) arms replace the state unconditionally, that the
value carried by a debounce timer is the byte length of the content right
after the mutation, and that the Save arm initiates a write exactly when
the state is Editing, dirty, and the current byte length equals the
carried value; the Saved(Ok) arm clears the dirty flag unconditionally. -/
def Kanso.update : Kanso → Message → Kanso × Command
  | _, .Loaded (.ok (filepath, content)) =>
      (.Editing filepath content false, .none)
  | _, .Loaded (.error e) => (.Errored e, .none)
  | .Creating _, .FilenameChanged nf => (.Creating nf, .none)
  | s, .FilenameChanged _ => (s, .none)
  | .Creating filename, .FilenameChosen =>
      (.Editing filename [] true, .scheduleSave 0)
  | s, .FilenameChosen => (s, .none)
  | .Editing fp content _, .Write c =>
      (.Editing fp (content ++ [c]) true,
       .scheduleSave (byteLen (content ++ [c])))
  | s, .Write _ => (s, .none)
  | .Editing fp content _, .Amend =>
      (.Editing fp content.dropLast true,
       .scheduleSave (byteLen content.dropLast))
  | s, .Amend => (s, .none)
  | .Editing fp content d, .Save v =>
      if d && (byteLen content == v)
      then (.Editing fp content d, .performSave fp content)
      else (.Editing fp content d, .none)
  | s, .Save _ => (s, .none)
  | .Editing fp content _, .Saved (.ok _) => (.Editing fp content false, .none)
  | s, .Saved (.ok _) => (s, .none)
  | _, .Saved (.error e) => (.Errored e, .none)

/-- Process a sequence of messages, keeping only the final state. -/
def Kanso.run (s : Kanso) (msgs : List Message) : Kanso :=
  msgs.foldl (fun st m => (st.update m).fst) s

/-- Process a sequence of messages, returning the final state together
with the list of commands issued, in order. -/
def Kanso.runTrace : Kanso → List Message → Kanso × List Command
  | s, [] => (s, [])
  | s, m :: rest =>
      ((Kanso.runTrace (s.update m).1 rest).1,
       (s.update m).2 :: (Kanso.runTrace (s.update m).1 rest).2)

/-- The message delivered to the controller by an edit intent. -/
def EditOp.toMessage : EditOp → Message
  | .write c => .Write c
  | .amend => .Amend

/-- Effect of one edit intent on the buffer of the controller. -/
def mutate : List Char → EditOp → List Char
  | content, .write c => content ++ [c]
  | content, .amend => content.dropLast

/-- Start index of the displayed tail in the view of src/main.rs:
content.len().saturating_sub(1000). -/
def tailStart (content : List Char) : Nat := byteLen content - 1000

/-- Whether a byte index is a character boundary of the UTF-8 encoding of
the string, that is a sum of the byte sizes of a prefix of its
characters; Rust string slicing panics on any other index. -/
def isCharBoundary (content : List Char) (i : Nat) : Bool :=
  (List.range (content.length + 1)).any
    (fun k => byteLen (content.take k) == i)

/-- Whether the slice content[tailStart..] taken by the view is
well-defined, that is whether its start index is a character boundary. -/
def viewTailOk (content : List Char) : Bool :=
  isCharBoundary content (tailStart content)

/-! ## Shared lemmas about the controller -/

/-- One mutation message in the Editing state mutates the buffer, marks
the state dirty, and schedules a timer carrying the new byte length. -/
theorem update_mutation (fp : String) (content : List Char) (d : Bool)
    (o : EditOp) :
    Kanso.update (.Editing fp content d) o.toMessage
      = (.Editing fp (mutate content o) true,
         .scheduleSave (byteLen (mutate content o))) := by
  cases o <;> rfl

/-- A timer whose carried value differs from the current byte length is a
no-op, leaving the state untouched. -/
theorem update_save_stale (fp : String) (content : List Char) (v : Nat)
    (h : byteLen content ≠ v) :
    Kanso.update (.Editing fp content true) (.Save v)
      = (.Editing fp content true, .none) := by
  have hb : (byteLen content == v) = false := by
    simpa using h
  simp [Kanso.update, hb]

/-- A timer whose carried value equals the current byte length of a dirty
Editing state initiates a save of the current snapshot. -/
theorem update_save_hit (fp : String) (content : List Char) :
    Kanso.update (.Editing fp content true) (.Save (byteLen content))
      = (.Editing fp content true, .performSave fp content) := by
  simp [Kanso.update]

/-! ## C1: stale-timer safety of the version guard -/

/-- C1 counterexample: the claim that a timer carrying V initiates no save
once any further mutation occurred before it fires is false. From an empty
clean Editing state, Write of character a schedules a timer carrying 1;
two further mutations follow (Write of b, then Amend), restoring byte
length 1; when the stale timer carrying 1 then fires, it initiates a save,
even though it is not the timer of the most recent mutation. -/
theorem stale_timer_counterexample :
    ((Kanso.Editing "f" [] false).update (.Write 'a')).2
        = Command.scheduleSave 1 ∧
    Kanso.run (.Editing "f" [] false) [.Write 'a', .Write 'b', .Amend]
        = .Editing "f" ['a'] true ∧
    (Kanso.run (.Editing "f" [] false)
        [.Write 'a', .Write 'b', .Amend]).update (.Save 1)
        = (.Editing "f" ['a'] true, .performSave "f" ['a']) := by
  refine ⟨rfl, by decide, by decide⟩

/-- C1 amended: when a timer carrying V fires, it initiates a save if and
only if the state is an Editing state that is dirty and whose current
content has byte length exactly V, and the save it initiates is of the
current snapshot. Hence a further mutation suppresses the timer exactly
when it leaves the byte length different from V; since byte length is not
a monotone version counter, a later mutation can restore it to V and let a
stale timer initiate the save. -/
theorem stale_timer_guard (s : Kanso) (v : Nat)
    (h : (s.update (.Save v)).2 ≠ Command.none) :
    ∃ fp content, s = .Editing fp content true ∧ byteLen content = v ∧
      s.update (.Save v) = (.Editing fp content true, .performSave fp content) := by
  cases s with
  | Loading => exact absurd rfl h
  | Creating fn => exact absurd rfl h
  | Errored e => exact absurd rfl h
  | Editing fp content d =>
      by_cases hg : (d && (byteLen content == v)) = true
      · have hd : d = true ∧ byteLen content = v := by
          simpa [Bool.and_eq_true] using hg
        refine ⟨fp, content, by rw [hd.1], hd.2, ?_⟩
        simp [Kanso.update, hd.1, hd.2]
      · exfalso
        apply h
        simp [Kanso.update, hg]

/-- C1 witness: the amended statement evaluated at a concrete dirty
Editing state whose byte length matches the carried value. -/
theorem stale_timer_guard_witness :
    (Kanso.Editing "f" ['a'] true).update (.Save 1)
      = (.Editing "f" ['a'] true, .performSave "f" ['a']) := by
  obtain ⟨fp, content, hs, hb, he⟩ :=
    stale_timer_guard (.Editing "f" ['a'] true) 1 (by decide)
  cases hs
  exact he

/-! ## C3: debounce coalescing -/

/-- C3 counterexample: a burst of three mutations within one debounce
window for which two saves are initiated, the first one by the timer of
the first mutation rather than the third. The burst Write a, Write b,
Amend schedules timers carrying 1, 2, 1; when they fire in order, the
first timer initiates a save (byte length is back to 1 and the state is
still dirty), the second is a no-op, and the third initiates a second
save. -/
theorem debounce_coalescing_counterexample :
    Kanso.runTrace (.Editing "f" [] false)
        [.Write 'a', .Write 'b', .Amend, .Save 1, .Save 2, .Save 1]
      = (.Editing "f" ['a'] true,
         [.scheduleSave 1, .scheduleSave 2, .scheduleSave 1,
          .performSave "f" ['a'], .none, .performSave "f" ['a']]) := by
  decide

/-- C3 amended: for a burst of three mutations within one debounce window
whose first and second intermediate byte lengths both differ from the
final byte length, exactly one save is initiated, by the timer scheduled
at the third mutation, and it saves the content as of the third mutation;
the two stale timers are no-ops. When an intermediate byte length equals
the final one, a stale timer can initiate an additional save. -/
theorem debounce_coalescing_amended
    (fp : String) (content0 : List Char) (d0 : Bool) (o1 o2 o3 : EditOp)
    (h13 : byteLen (mutate content0 o1)
        ≠ byteLen (mutate (mutate (mutate content0 o1) o2) o3))
    (h23 : byteLen (mutate (mutate content0 o1) o2)
        ≠ byteLen (mutate (mutate (mutate content0 o1) o2) o3)) :
    Kanso.runTrace (.Editing fp content0 d0)
        [o1.toMessage, o2.toMessage, o3.toMessage,
         .Save (byteLen (mutate content0 o1)),
         .Save (byteLen (mutate (mutate content0 o1) o2)),
         .Save (byteLen (mutate (mutate (mutate content0 o1) o2) o3))]
      = (.Editing fp (mutate (mutate (mutate content0 o1) o2) o3) true,
         [.scheduleSave (byteLen (mutate content0 o1)),
          .scheduleSave (byteLen (mutate (mutate content0 o1) o2)),
          .scheduleSave (byteLen (mutate (mutate (mutate content0 o1) o2) o3)),
          .none, .none,
          .performSave fp (mutate (mutate (mutate content0 o1) o2) o3)]) := by
  have e1 := update_mutation fp content0 d0 o1
  have e2 := update_mutation fp (mutate content0 o1) true o2
  have e3 := update_mutation fp (mutate (mutate content0 o1) o2) true o3
  have e4 := update_save_stale fp (mutate (mutate (mutate content0 o1) o2) o3)
      (byteLen (mutate content0 o1)) (Ne.symm h13)
  have e5 := update_save_stale fp (mutate (mutate (mutate content0 o1) o2) o3)
      (byteLen (mutate (mutate content0 o1) o2)) (Ne.symm h23)
  have e6 := update_save_hit fp (mutate (mutate (mutate content0 o1) o2) o3)
  simp only [Kanso.runTrace, e1, e2, e3, e4, e5, e6]

/-- C3 witness: the amended statement at the concrete burst Write a,
Write b, Write c, whose timers carry 1, 2, 3: only the last timer
initiates a save, of the content as of the third mutation. -/
theorem debounce_coalescing_amended_witness :
    Kanso.runTrace (.Editing "f" [] false)
        [.Write 'a', .Write 'b', .Write 'c', .Save 1, .Save 2, .Save 3]
      = (.Editing "f" ['a', 'b', 'c'] true,
         [.scheduleSave 1, .scheduleSave 2, .scheduleSave 3,
          .none, .none, .performSave "f" ['a', 'b', 'c']]) := by
  have h := debounce_coalescing_amended "f" [] false
      (.write 'a') (.write 'b') (.write 'c') (by decide) (by decide)
  exact h

/-! ## C2: save completion versus newer edits -/

/-- C2: evaluation of the controller at the failing run. A save is
initiated for the dirty Editing state with content of one character a;
before its success completion is processed, a further Write of b occurs;
processing the completion then clears the dirty flag unconditionally, so
the controller reports clean although b was never saved, and the timer
scheduled by the Write of b (carrying 2) subsequently initiates nothing,
so that edit is never persisted. This contradicts the claim, which the
unused session module src/writing.rs would satisfy: there, dirtiness is
derived from version versus last_save and a completion changes nothing. -/
theorem save_completion_clears_newer_edits :
    ((Kanso.Editing "f" ['a'] true).update (.Save 1)).2
        = Command.performSave "f" ['a'] ∧
    Kanso.run (.Editing "f" ['a'] true) [.Save 1, .Write 'b', .Saved (.ok ())]
        = .Editing "f" ['a', 'b'] false ∧
    ((Kanso.Editing "f" ['a', 'b'] false).update (.Save 2)).2
        = Command.none := by
  refine ⟨by decide, by decide, by decide⟩

/-! ## C6: error terminality -/

/-- C6 counterexample: processing further events in the Errored state does
not always leave the captured error unchanged. A successful load
completion replaces the Errored state with an Editing state outright, and
a failed save completion (possible while Errored, since a second save can
still be in flight) replaces the captured error with the new one. -/
theorem error_terminality_counterexample :
    Kanso.update (.Errored (.IOFailed .PermissionDenied))
        (.Loaded (.ok ("f", [])))
      = (.Editing "f" [] false, .none) ∧
    Kanso.update (.Errored (.IOFailed .PermissionDenied))
        (.Saved (.error (.IOFailed (.Other 28))))
      = (.Errored (.IOFailed (.Other 28)), .none) :=
  ⟨rfl, rfl⟩

/-- C6 amended: once Errored, every event other than a load completion or
a failed save completion leaves the state in Errored with the same
captured error and no command; a failed save or load completion keeps the
state Errored but replaces the captured error; a successful load
completion replaces the state with Editing. In a real run no load
completion can arrive once Errored, since the single load issued at
startup is consumed before Editing, and hence Errored-via-save, is
reachable; a second in-flight save failing is reachable, and replaces the
error. -/
theorem error_terminality_amended :
    (∀ (e : Error) (m : Message),
        (∀ r, m ≠ Message.Loaded r) →
        (∀ e2, m ≠ Message.Saved (.error e2)) →
        Kanso.update (.Errored e) m = (.Errored e, .none)) ∧
    (∀ e e2, Kanso.update (.Errored e) (.Saved (.error e2))
        = (.Errored e2, .none)) ∧
    (∀ e e2, Kanso.update (.Errored e) (.Loaded (.error e2))
        = (.Errored e2, .none)) ∧
    (∀ e fp content, Kanso.update (.Errored e) (.Loaded (.ok (fp, content)))
        = (.Editing fp content false, .none)) := by
  refine ⟨?_, fun e e2 => rfl, fun e e2 => rfl, fun e fp content => rfl⟩
  intro e m h1 h2
  cases m with
  | Loaded r => exact absurd rfl (h1 r)
  | FilenameChanged nf => rfl
  | FilenameChosen => rfl
  | Write c => rfl
  | Amend => rfl
  | Save v => rfl
  | Saved r =>
      cases r with
      | ok u => rfl
      | error e2 => exact absurd rfl (h2 e2)

/-- C6 witness: the amended statement at a concrete Errored state and a
concrete inert event, an insert intent. -/
theorem error_terminality_amended_witness :
    Kanso.update (.Errored (.IOFailed .NotFound)) (.Write 'a')
      = (.Errored (.IOFailed .NotFound), .none) :=
  error_terminality_amended.1 (.IOFailed .NotFound) (.Write 'a')
    (fun r h => by cases h) (fun e2 h => by cases h)

/-! ## Shared lemmas about the session -/

/-- A successful load yields the requested filepath, both counters at
zero, and a baseline equal to the word count of the loaded content. -/
theorem load_ok_inv (uw : WordSegmenter) (fs : Fs) (p : String) (s : Writing)
    (h : Writing.load uw fs p = Except.ok s) :
    s.filepath = p ∧ s.version = 0 ∧ s.last_save = 0 ∧
      s.original_word_count = uw.count s.content := by
  unfold Writing.load at h
  split at h
  · cases h
  · split at h
    · cases h
    · cases h
      exact ⟨rfl, rfl, rfl, rfl⟩

/-- Every edit intent advances the version by exactly one. -/
theorem apply_version (s : Writing) (o : EditOp) :
    (s.apply o).version = s.version + 1 := by
  cases o <;> rfl

/-- A sequence of edit intents advances the version by its length. -/
theorem applyAll_version (s : Writing) (ops : List EditOp) :
    (s.applyAll ops).version = s.version + ops.length := by
  induction ops generalizing s with
  | nil => rfl
  | cons o rest ih =>
      have h1 : s.applyAll (o :: rest) = (s.apply o).applyAll rest := rfl
      rw [h1, ih, apply_version, List.length_cons]
      omega

/-- Edit intents never change the baseline word count of a session. -/
theorem applyAll_original_word_count (s : Writing) (ops : List EditOp) :
    (s.applyAll ops).original_word_count = s.original_word_count := by
  induction ops generalizing s with
  | nil => rfl
  | cons o rest ih =>
      have h1 : s.applyAll (o :: rest) = (s.apply o).applyAll rest := rfl
      rw [h1, ih]
      cases o <;> rfl

/-- A word segmenter that finds no words; used to instantiate theorems at
concrete inputs. -/
def wordsNone : WordSegmenter := ⟨fun _ => 0, rfl⟩

/-- A word segmenter counting one word per character; used to instantiate
theorems at concrete inputs. -/
def wordsLen : WordSegmenter := ⟨fun l => l.length, rfl⟩

/-- A filesystem on which no file exists. -/
def fsAbsent : Fs := ⟨fun _ => .ok false, fun _ => .ok []⟩

/-- A filesystem on which every existence check fails with
PermissionDenied. -/
def fsDenied : Fs := ⟨fun _ => .error .PermissionDenied, fun _ => .ok []⟩

/-- A filesystem on which every path exists but every read fails with
IsADirectory. -/
def fsDirectory : Fs := ⟨fun _ => .ok true, fun _ => .error .IsADirectory⟩

/-! ## C4: dirtiness invariant and initiation-time bookkeeping -/

/-- C4: at every session state, is_dirty holds exactly when the version
differs from the last initiated save version; initiating a save
synchronously sets last_save to the current version (the asynchronous
write only uses the returned snapshot), so a session is clean immediately
after initiating a save, and a freshly loaded session is clean. -/
theorem dirtiness_invariant (s t : Writing)
    (uw : WordSegmenter) (fs : Fs) (p : String) (s0 : Writing)
    (h : Writing.load uw fs p = Except.ok s0) :
    (s.is_dirty = true ↔ s.version ≠ s.last_save) ∧
    ((t.save).1.last_save = t.version ∧ (t.save).1.is_dirty = false) ∧
    s0.is_dirty = false := by
  refine ⟨by simp [Writing.is_dirty], ⟨rfl, by simp [Writing.save, Writing.is_dirty]⟩, ?_⟩
  have h0 := load_ok_inv uw fs p s0 h
  simp [Writing.is_dirty, h0.2.1, h0.2.2.1]

/-- C4 witness: the invariant evaluated at a concrete dirty session, a
concrete save initiation, and a concrete successful load. -/
theorem dirtiness_invariant_witness :
    ((Writing.mk "f" ['a'] 2 1 0).is_dirty = true ↔ (2 : Nat) ≠ 1) ∧
    (((Writing.mk "g" ['b'] 3 1 0).save).1.last_save = 3 ∧
      ((Writing.mk "g" ['b'] 3 1 0).save).1.is_dirty = false) ∧
    (Writing.mk "f" [] 0 0 0).is_dirty = false :=
  dirtiness_invariant (Writing.mk "f" ['a'] 2 1 0) (Writing.mk "g" ['b'] 3 1 0)
    wordsNone fsAbsent "f" (Writing.mk "f" [] 0 0 0) rfl

/-! ## C5: not-found tolerance of load -/

/-- C5: if the file does not exist, load succeeds with empty content, both
counters at zero and baseline word count zero; an existence check failing
with any other kind, or a read failing with any kind, surfaces as
IOFailed of that kind. -/
theorem load_not_found_tolerance
    (uw : WordSegmenter) (fs : Fs) (p : String)
    (hnf : fs.try_exists p = Except.ok false)
    (fs2 : Fs) (p2 : String) (k2 : ErrorKind)
    (hex : fs2.try_exists p2 = Except.error k2)
    (fs3 : Fs) (p3 : String) (k3 : ErrorKind)
    (hex3 : fs3.try_exists p3 = Except.ok true)
    (hrd : fs3.read_to_string p3 = Except.error k3) :
    Writing.load uw fs p = Except.ok (Writing.mk p [] 0 0 0) ∧
    Writing.load uw fs2 p2 = Except.error (Error.IOFailed k2) ∧
    Writing.load uw fs3 p3 = Except.error (Error.IOFailed k3) := by
  refine ⟨?_, ?_, ?_⟩
  · unfold Writing.load
    rw [hnf]
    simp [uw.count_nil]
  · unfold Writing.load
    rw [hex]
  · unfold Writing.load
    rw [hex3]
    simp [hrd]

/-- C5 witness: load evaluated on a filesystem without the file, on one
whose existence check is denied, and on one where the path is a
directory. -/
theorem load_not_found_tolerance_witness :
    Writing.load wordsLen fsAbsent "f" = Except.ok (Writing.mk "f" [] 0 0 0) ∧
    Writing.load wordsLen fsDenied "g"
      = Except.error (Error.IOFailed .PermissionDenied) ∧
    Writing.load wordsLen fsDirectory "h"
      = Except.error (Error.IOFailed .IsADirectory) :=
  load_not_found_tolerance wordsLen fsAbsent "f" rfl
    fsDenied "g" .PermissionDenied rfl
    fsDirectory "h" .IsADirectory rfl rfl

/-! ## C8: version counts every mutation -/

/-- C8: applying n edit intents to a freshly loaded session (whose version
is zero) yields version n, and amend on an empty buffer leaves the content
empty while still advancing the version by exactly one. -/
theorem version_counts_every_mutation
    (uw : WordSegmenter) (fs : Fs) (p : String) (s0 : Writing)
    (h : Writing.load uw fs p = Except.ok s0) (ops : List EditOp)
    (s : Writing) (hs : s.content = []) :
    (s0.applyAll ops).version = ops.length ∧
    s.amend.content = [] ∧ s.amend.version = s.version + 1 := by
  refine ⟨?_, ?_, rfl⟩
  · rw [applyAll_version, (load_ok_inv uw fs p s0 h).2.1]
    omega
  · show s.content.dropLast = []
    rw [hs]
    rfl

/-- C8 witness: a freshly loaded empty session brought through two edit
intents has version two, and amend on a concrete empty-buffer session
keeps the buffer empty and advances the version from five to six. -/
theorem version_counts_every_mutation_witness :
    ((Writing.mk "f" [] 0 0 0).applyAll [.write 'a', .amend]).version = 2 ∧
    (Writing.mk "g" [] 5 5 0).amend.content = [] ∧
    (Writing.mk "g" [] 5 5 0).amend.version = 5 + 1 :=
  version_counts_every_mutation wordsNone fsAbsent "f" (Writing.mk "f" [] 0 0 0)
    rfl [.write 'a', .amend] (Writing.mk "g" [] 5 5 0) rfl

/-! ## C9: word-count delta -/

/-- C9: the word-count difference of a session is its current word count
minus its baseline word count, as a signed integer; the baseline is set at
load time to the word count of the loaded content and is never changed by
edits; in particular a session with baseline ten and current word count
thirteen has difference three, and with current word count eight has
difference minus two. -/
theorem word_count_delta
    (uw : WordSegmenter) (s : Writing) (ops : List EditOp)
    (fs : Fs) (p : String) (s0 : Writing)
    (h : Writing.load uw fs p = Except.ok s0)
    (s13 : Writing) (h13b : s13.original_word_count = 10)
    (h13 : Writing.word_count uw s13 = 13)
    (s8 : Writing) (h8b : s8.original_word_count = 10)
    (h8 : Writing.word_count uw s8 = 8) :
    Writing.word_count_difference uw s
      = (Writing.word_count uw s : Int) - (s.original_word_count : Int) ∧
    (s.applyAll ops).original_word_count = s.original_word_count ∧
    s0.original_word_count = uw.count s0.content ∧
    Writing.word_count_difference uw s13 = 3 ∧
    Writing.word_count_difference uw s8 = -2 := by
  refine ⟨rfl, applyAll_original_word_count s ops,
    (load_ok_inv uw fs p s0 h).2.2.2, ?_, ?_⟩
  · unfold Writing.word_count_difference
    rw [h13, h13b]
    decide
  · unfold Writing.word_count_difference
    rw [h8, h8b]
    decide

/-- C9 witness: the statement evaluated with the per-character segmenter
at sessions of thirteen and eight characters with baseline ten. -/
theorem word_count_delta_witness :
    Writing.word_count_difference wordsLen (Writing.mk "f" ['a'] 1 0 0)
      = (Writing.word_count wordsLen (Writing.mk "f" ['a'] 1 0 0) : Int)
        - ((Writing.mk "f" ['a'] 1 0 0).original_word_count : Int) ∧
    ((Writing.mk "f" ['a'] 1 0 0).applyAll [.amend]).original_word_count
      = (Writing.mk "f" ['a'] 1 0 0).original_word_count ∧
    (Writing.mk "f" [] 0 0 0).original_word_count
      = wordsLen.count (Writing.mk "f" [] 0 0 0).content ∧
    Writing.word_count_difference wordsLen
      (Writing.mk "f" (List.replicate 13 'a') 3 0 10) = 3 ∧
    Writing.word_count_difference wordsLen
      (Writing.mk "f" (List.replicate 8 'a') 2 0 10) = -2 :=
  word_count_delta wordsLen (Writing.mk "f" ['a'] 1 0 0) [.amend]
    fsAbsent "f" (Writing.mk "f" [] 0 0 0) rfl
    (Writing.mk "f" (List.replicate 13 'a') 3 0 10) rfl (by decide)
    (Writing.mk "f" (List.replicate 8 'a') 2 0 10) rfl (by decide)

/-! ## C10: frame effects of the session operations -/

/-- C10: write and amend change only the content and version fields,
leaving filepath, last_save and original_word_count untouched; the
synchronous part of save changes only last_save, leaving filepath,
content, version and original_word_count untouched. -/
theorem frame_effects (s : Writing) (c : Char) :
    ((s.write c).filepath = s.filepath ∧ (s.write c).last_save = s.last_save ∧
      (s.write c).original_word_count = s.original_word_count) ∧
    (s.amend.filepath = s.filepath ∧ s.amend.last_save = s.last_save ∧
      s.amend.original_word_count = s.original_word_count) ∧
    ((s.save).1.filepath = s.filepath ∧ (s.save).1.content = s.content ∧
      (s.save).1.version = s.version ∧
      (s.save).1.original_word_count = s.original_word_count) :=
  ⟨⟨rfl, rfl, rfl⟩, ⟨rfl, rfl, rfl⟩, ⟨rfl, rfl, rfl, rfl⟩⟩

/-! ## C7: the display-tail read -/

/-- Byte length distributes over cons. -/
theorem byteLen_cons (c : Char) (l : List Char) :
    byteLen (c :: l) = len_utf8 c + byteLen l := by
  simp [byteLen]

/-- Byte length of a repeated character. -/
theorem byteLen_replicate (n : Nat) (c : Char) :
    byteLen (List.replicate n c) = n * len_utf8 c := by
  induction n with
  | zero => simp [byteLen]
  | succ k ih =>
      rw [List.replicate_succ, byteLen_cons, ih]
      ring

/-- A content reachable by insertions on which the displayed tail is not
well-defined: one two-byte character followed by 999 one-byte characters,
1001 bytes in total. -/
def badContent : List Char := 'é' :: List.replicate 999 'a'

/-- The bad content has 1001 bytes. -/
theorem byteLen_badContent : byteLen badContent = 1001 := by
  rw [badContent, byteLen_cons, byteLen_replicate]
  decide

/-- No prefix of the bad content has byte length one: the empty prefix has
zero bytes and every other prefix starts with the two-byte character. -/
theorem badContent_take_ne_one (k : Nat) : byteLen (badContent.take k) ≠ 1 := by
  cases k with
  | zero => decide
  | succ k2 =>
      have ht : badContent.take (k2 + 1)
          = 'é' :: (List.replicate 999 'a').take k2 := rfl
      rw [ht, byteLen_cons, List.take_replicate, byteLen_replicate]
      have h1 : len_utf8 'a' = 1 := by decide
      have h2 : len_utf8 'é' = 2 := by decide
      rw [h1, h2]
      omega

/-- Processing one message and then the rest. -/
theorem run_cons (s : Kanso) (m : Message) (rest : List Message) :
    Kanso.run s (m :: rest) = Kanso.run (s.update m).1 rest := rfl

/-- Consecutive insertions in the Editing state append their characters,
leaving the state dirty. -/
theorem run_writes (fp : String) (c l : List Char) :
    Kanso.run (.Editing fp c true) (l.map Message.Write)
      = .Editing fp (c ++ l) true := by
  induction l generalizing c with
  | nil => simp [Kanso.run]
  | cons x xs ih =>
      have h1 : Kanso.run (.Editing fp c true) ((x :: xs).map Message.Write)
          = Kanso.run (.Editing fp (c ++ [x]) true) (xs.map Message.Write) := rfl
      rw [h1, ih (c ++ [x])]
      simp

/-- C7: the displayed tail can panic. The content consisting of one
two-byte character followed by 999 one-byte characters is reachable from
an empty Editing state by 1000 insertions; it has 1001 UTF-8 bytes, so the
view computes the start index 1001 - 1000 = 1, and 1 is not a character
boundary (it falls inside the two-byte character), so the byte slice the
view takes of it panics in Rust, contradicting the claim that the
computed index is always a valid slicing boundary. -/
theorem view_tail_boundary_bug :
    Kanso.run (.Editing "f" [] false) (badContent.map Message.Write)
      = .Editing "f" badContent true ∧
    byteLen badContent = 1001 ∧
    tailStart badContent = 1 ∧
    viewTailOk badContent = false := by
  have hst : tailStart badContent = 1 := by
    rw [tailStart, byteLen_badContent]
  refine ⟨?_, byteLen_badContent, hst, ?_⟩
  · rw [badContent, List.map_cons, run_cons]
    have h2 : ((Kanso.Editing "f" ([] : List Char) false).update (.Write 'é')).1
        = .Editing "f" ['é'] true := rfl
    rw [h2, run_writes, List.singleton_append]
  · rw [viewTailOk, hst, isCharBoundary]
    rw [List.any_eq_false]
    intro k hk
    simpa using badContent_take_ne_one k
